import Mathlib

/-!
Verification development for `records.py`: a shallow embedding of the
`Record` row view, the `RecordCollection` lazy caching sequence, and the
`Database` connection/transaction facade, with theorems settling the
specification claims against the code.

Conventions of the embedding:
* Python exceptions are modelled by the `PyError` type; a fallible Python
  operation returns `Except PyError a`.  Exception messages are kept close
  to the source text but quotes are dropped.
* A Python exception *object used as an ordinary value* (the source returns
  `KeyError(...)` from one lookup path instead of raising it) is modelled by
  the `Val.exc` constructor, distinct from the `.error` branch of `Except`.
* Stateful methods on `RecordCollection` return a pair of the Python result
  and the collection's state after the call (the producer is a list whose
  head is the next row the producer would emit; consuming it models one pull).
-/

namespace Records

/-- The Python exceptions raised (or constructed) by `records.py`. -/
inductive PyError where
  | keyError (msg : String)
  | indexError (msg : String)
  | typeError (msg : String)
  | valueError (msg : String)
  | attributeError (msg : String)
  | stopIteration (msg : String)
  | resourceClosed (msg : String)
  | assertionError
deriving DecidableEq

/-- A Python value stored in a row.  `datetime iso` models a datetime-like
object: it is exactly the values with an `isoformat` attribute, and calling
`isoformat()` on it yields the ISO-8601 string `iso`.  `exc` models an
exception object handed around as an ordinary value. -/
inductive Val where
  | int (n : Int)
  | str (s : String)
  | pynone
  | datetime (iso : String)
  | exc (e : PyError)
deriving DecidableEq

/-- `isexception(obj)` (lines 14–19): true for exception instances (and
exception classes, which the embedding does not distinguish). -/
def isexception : Val → Bool
  | .exc _ => true
  | _ => false

/-- `raise default` for a `default` that passed the `isexception` test. -/
def Val.raised : Val → PyError
  | .exc e => e
  | _ => .typeError "exceptions must derive from BaseException"

/-- `hasattr(v, 'isoformat')`: in this embedding exactly the datetime-like
values carry an `isoformat` attribute. -/
def hasattr_isoformat : Val → Bool
  | .datetime _ => true
  | _ => false

/-- `v.isoformat()`, defined on the values where `hasattr_isoformat` holds. -/
def call_isoformat : Val → Val
  | .datetime iso => .str iso
  | v => v

/-- `row[i]` on a Python list: the element, or `IndexError` out of range. -/
def pyListGet (xs : List Val) (i : Nat) : Except PyError Val :=
  match xs.get? i with
  | some v => .ok v
  | none => .error (.indexError "list index out of range")

/-- One step of building a Python dict in insertion order: an existing key
is updated in place, a new key is appended. -/
def pyDictInsert (d : List (String × Val)) (k : String) (v : Val) :
    List (String × Val) :=
  if d.any (fun p => p.1 = k) then d.map (fun p => if p.1 = k then (k, v) else p)
  else d ++ [(k, v)]

/-- `dict(items)` / `OrderedDict(items)`: duplicate keys keep the position of
the first insertion and the value of the last. -/
def pyDict (items : List (String × Val)) : List (String × Val) :=
  items.foldl (fun d kv => pyDictInsert d kv.1 kv.2) []

/-- `Record` (lines 22–84): one result row, a parallel pair of field names
and values (`__slots__ = ['_keys', '_values']`). -/
structure Record where
  _keys : List String
  _values : List Val
deriving DecidableEq

/-- `Record.__init__` (lines 25–29): stores the two sequences and asserts
`len(self._keys) == len(self._values)`. -/
def Record.init (keys : List String) (values : List Val) :
    Except PyError Record :=
  if keys.length = values.length then .ok ⟨keys, values⟩
  else .error .assertionError

/-- `Record.keys` (lines 31–32). -/
def Record.keys (r : Record) : List String := r._keys

/-- `Record.values` (lines 34–35). -/
def Record.values (r : Record) : List Val := r._values

/-- Message of the `KeyError` raised for a duplicated field name (line 47),
`"Record contains multiple '<key>' fields"` in the source (quotes dropped). -/
def ambiguousMsg (key : String) : String :=
  "Record contains multiple " ++ key ++ " fields"

/-- Message of the `KeyError` *constructed* on line 50.  The source never
calls `.format` on it, so the braces stay literal in the Python string; the
quotes are dropped here. -/
def missingMsg : String := "Record contains multiple no \x7b\x7d fields"

/-- `Record.__getitem__` with an integer key (lines 40–42):
`return self.values()[key]`. -/
def Record.getitem_pos (r : Record) (key : Nat) : Except PyError Val :=
  pyListGet r.values key

/-- `Record.__getitem__` with a string key (lines 40–50).  If the key is
present, the index of its first occurrence is taken; a duplicated key
*raises* `KeyError`; a unique key returns its value.  An absent key falls
through to line 50, which *returns* a `KeyError` object as an ordinary
value instead of raising it. -/
def Record.getitem_str (r : Record) (key : String) : Except PyError Val :=
  if key ∈ r.keys then
    let i := r.keys.indexOf key
    if r.keys.count key > 1 then
      .error (.keyError (ambiguousMsg key))
    else
      pyListGet r.values i
  else
    .ok (.exc (.keyError missingMsg))

/-- `Record.__getattr__` (lines 52–56): delegates to `self[key]`; a raised
`KeyError` is caught and an `AttributeError` object is *returned* as a value
(line 56: `return AttributeError(e)`, not `raise`). -/
def Record.getattr (r : Record) (key : String) : Except PyError Val :=
  match r.getitem_str key with
  | .ok v => .ok v
  | .error (.keyError m) => .ok (.exc (.attributeError m))
  | .error e => .error e

/-- `Record.get` (lines 62–66): `self[key]`, with a raised `KeyError`
replaced by `default`. -/
def Record.get (r : Record) (key : String) (default : Val) :
    Except PyError Val :=
  match r.getitem_str key with
  | .ok v => .ok v
  | .error (.keyError _) => .ok default
  | .error e => .error e

/-- `Record.as_dict` (lines 68–71): zips names to values into a dict
(`OrderedDict` when `ordered`; both have the same key order and content in
this embedding). -/
def Record.as_dict (r : Record) (_ordered : Bool) : List (String × Val) :=
  pyDict (r.keys.zip r.values)

/-- `_reduce_datetimes` (lines 275–280): every value with an `isoformat`
attribute is replaced by `isoformat()`, every other value is left in place. -/
def _reduce_datetimes (row : List Val) : List Val :=
  row.map (fun v => if hasattr_isoformat v then call_isoformat v else v)

/-- A tablib `Dataset` at the interface the core uses: optional headers and
a list of value rows.  `tablib.Dataset()` starts with neither. -/
structure Dataset where
  headers : Option (List String)
  rows : List (List Val)
deriving DecidableEq

/-- `Record.dataset` (lines 73–81): headers from `self.keys()`, one row
`_reduce_datetimes(self.values())`. -/
def Record.dataset (r : Record) : Dataset :=
  { headers := some r.keys, rows := [_reduce_datetimes r.values] }

/-- `RecordCollection` (lines 87–209).  `rows` is the forward-only producer
(`self._rows`), modelled as the list of rows it has yet to emit; `all_rows`
is the cache (`self._all_rows`); `pending` the exhaustion flag.
`__init__` (lines 88–91) wraps a fresh producer with an empty cache and
`pending = True`, i.e. `⟨producer, [], true⟩`. -/
structure RecordCollection where
  rows : List Record
  all_rows : List Record
  pending : Bool
deriving DecidableEq

/-- `len(self)` = `len(self._all_rows)` (lines 120–121). -/
def RecordCollection.len (c : RecordCollection) : Nat := c.all_rows.length

/-- `RecordCollection.__next__` (lines 111–118): pull one row from the
producer and append it to the cache; on producer exhaustion set
`pending = False` and re-raise `StopIteration`.  An exhausted producer keeps
raising `StopIteration` on every later pull. -/
def RecordCollection.nextR (c : RecordCollection) :
    Except PyError Record × RecordCollection :=
  match c.rows with
  | [] =>
    (.error (.stopIteration "RecordCollection contains no more rows."),
     { c with pending := false })
  | r :: rest =>
    (.ok r, { c with rows := rest, all_rows := c.all_rows ++ [r] })

/-- The key argument of `RecordCollection.__getitem__`: an `int` object or a
`slice` object (`start`/`stop` each an `int` or `None`). -/
inductive Key where
  | int (i : Int)
  | slice (start stop : Option Int)
deriving DecidableEq

/-- Message of the `TypeError` Python raises when `isinstance`'s second
argument is not a type. -/
def isinstanceTypeMsg : String :=
  "isinstance() arg 2 must be a type or tuple of types"

/-- Line 124: `is_int = isinstance(int, key)`.  The two arguments are
swapped: `isinstance`'s second argument must be a type, but `key` is an
`int` or `slice` *instance*, so this raises
`TypeError: isinstance() arg 2 must be a type or tuple of types`
for every key. -/
def isinstance_int_key (_ : Key) : Except PyError Bool :=
  .error (.typeError isinstanceTypeMsg)

/-- Clamping of one Python slice bound against a list of length `len`:
a negative bound counts from the end (floored at 0), a non-negative bound is
capped at `len`; a missing bound takes the default `dflt`. -/
def pySliceBound (len dflt : Nat) : Option Int → Nat
  | none => dflt
  | some i => if i < 0 then (i + len).toNat else min i.toNat len

/-- `xs[start:stop]` on a Python list (step 1): the elements at positions
`[a, b)` after clamping both bounds. -/
def pySlice (xs : List Record) (start stop : Option Int) : List Record :=
  let a := pySliceBound xs.length 0 start
  let b := pySliceBound xs.length xs.length stop
  (xs.take b).drop a

/-- The `while` loop of `__getitem__` (lines 129–133) with a known `stop`
bound, written as structural recursion on the producer list:
`while len(self) < key.stop: try: next(self) except StopIteration: break`.
The loop guard is evaluated before the pull, so when it is already false the
state is untouched; a pull on an exhausted producer sets `pending = False`
(inside `next`) and breaks. -/
def fillLoop (s : Int) (cache : List Record) (pending : Bool) :
    List Record → List Record × List Record × Bool
  | [] =>
    if (cache.length : Int) < s then ([], cache, false)
    else ([], cache, pending)
  | r :: rest =>
    if (cache.length : Int) < s then fillLoop s (cache ++ [r]) pending rest
    else (r :: rest, cache, pending)

/-- The same loop including the guard `len(self) < key.stop or key.stop is
None` (line 129).  Python evaluates `len(self) < key.stop` first, so a
`stop` of `None` raises `TypeError` (`int` is not ordered against
`NoneType`) before the `is None` test is ever useful. -/
def RecordCollection.fillTo (c : RecordCollection) (stop : Option Int) :
    Except PyError Unit × RecordCollection :=
  match stop with
  | none =>
    (.error (.typeError "< not supported between instances of int and NoneType"), c)
  | some s =>
    let t := fillLoop s c.all_rows c.pending c.rows
    (.ok (), ⟨t.1, t.2.1, t.2.2⟩)

/-- Lines 126–138 of `RecordCollection.__getitem__` for an integer key,
i.e. the code that would run after line 124 with `is_int = True`:
`key = slice(key, key + 1)`; fill the cache up to `key.stop`;
`rows = self._all_rows[key]`; `return rows[0]` (an empty slice raises
`IndexError`).  Unreachable in the source because line 124 always raises;
kept to record what the rest of the method does. -/
def RecordCollection.getitem_int_cont (c : RecordCollection) (i : Int) :
    Except PyError Record × RecordCollection :=
  match c.fillTo (some (i + 1)) with
  | (.error e, c') => (.error e, c')
  | (.ok _, c') =>
    match pySlice c'.all_rows (some i) (some (i + 1)) with
    | [] => (.error (.indexError "list index out of range"), c')
    | r :: _ => (.ok r, c')

/-- Lines 126–138 of `RecordCollection.__getitem__` for a slice key
(`is_int = False`): fill the cache up to `key.stop`, then return a new
`RecordCollection` over `iter(self._all_rows[key])` — fresh producer over
the cached sub-range, empty cache, `pending = True`.  Unreachable in the
source because line 124 always raises. -/
def RecordCollection.getitem_slice_cont (c : RecordCollection)
    (start stop : Option Int) :
    Except PyError RecordCollection × RecordCollection :=
  match c.fillTo stop with
  | (.error e, c') => (.error e, c')
  | (.ok _, c') => (.ok ⟨pySlice c'.all_rows start stop, [], true⟩, c')

/-- `RecordCollection.__getitem__` (lines 123–138) with an integer key.
Line 124 (`isinstance(int, key)`) raises `TypeError` before anything else
runs. -/
def RecordCollection.getitem_int (c : RecordCollection) (i : Int) :
    Except PyError Record × RecordCollection :=
  match isinstance_int_key (.int i) with
  | .error e => (.error e, c)
  | .ok _ => c.getitem_int_cont i

/-- `RecordCollection.__getitem__` (lines 123–138) with a slice key.
Line 124 raises `TypeError` before anything else runs. -/
def RecordCollection.getitem_slice (c : RecordCollection)
    (start stop : Option Int) :
    Except PyError RecordCollection × RecordCollection :=
  match isinstance_int_key (.slice start stop) with
  | .error e => (.error e, c)
  | .ok _ => c.getitem_slice_cont start stop

/-- `RecordCollection.__iter__` (lines 96–106) consumed by `list(self)`,
written as structural recursion on the producer list.  The generator keeps a
position `i`; while `i < len(self)` it yields `self[i]` (whose `__getitem__`
raises `TypeError` at line 124 — the impossible success branch is discharged
by proof), otherwise it yields `next(self)`, returning on `StopIteration`. -/
def RecordCollection.iterLoop (i : Nat) (cache : List Record)
    (pending : Bool) :
    List Record → Except PyError (List Record) × RecordCollection
  | [] =>
    if i < cache.length then
      match h : RecordCollection.getitem_int ⟨[], cache, pending⟩ (Int.ofNat i) with
      | (.error e, c') => (.error e, c')
      | (.ok _, _) => by
        simp [RecordCollection.getitem_int, isinstance_int_key] at h
    else
      (.ok [], ⟨[], cache, false⟩)
  | r :: rest =>
    if i < cache.length then
      match h : RecordCollection.getitem_int ⟨r :: rest, cache, pending⟩ (Int.ofNat i) with
      | (.error e, c') => (.error e, c')
      | (.ok _, _) => by
        simp [RecordCollection.getitem_int, isinstance_int_key] at h
    else
      match RecordCollection.iterLoop (i + 1) (cache ++ [r]) pending rest with
      | (.error e, c'') => (.error e, c'')
      | (.ok rs, c'') => (.ok (r :: rs), c'')

/-- `list(self)`: run the `__iter__` generator to completion from position
0 on the current state. -/
def RecordCollection.pyList (c : RecordCollection) :
    Except PyError (List Record) × RecordCollection :=
  RecordCollection.iterLoop 0 c.all_rows c.pending c.rows

/-- The payload `all` builds when one of its flags is set: each cached row
through `as_dict`. -/
inductive AllPayload where
  | dicts (ds : List (List (String × Val)))
deriving DecidableEq

/-- `RecordCollection.all` (lines 157–163): `rows = list(self)`; with
`as_dict` return the rows as dicts, with `as_ordereddict` as ordered dicts.
With both flags false the method has no `return` statement and yields
Python `None` (modelled by the payload `Option.none`). -/
def RecordCollection.all (c : RecordCollection)
    (as_dict as_ordereddict : Bool) :
    Except PyError (Option AllPayload) × RecordCollection :=
  match c.pyList with
  | (.error e, c') => (.error e, c')
  | (.ok rows, c') =>
    if as_dict then
      (.ok (some (.dicts (rows.map (fun r => r.as_dict false)))), c')
    else if as_ordereddict then
      (.ok (some (.dicts (rows.map (fun r => r.as_dict true)))), c')
    else
      (.ok none, c')

/-- Result of `RecordCollection.one`: either the single row, or the
caller-supplied default value. -/
inductive OneResult where
  | row (r : Record)
  | dflt (v : Val)
deriving DecidableEq

/-- `RecordCollection.one` (lines 183–205) with its dict flags at their
default `False`: `self[0]`, with `IndexError` mapped to the default
(raised when the default is an exception); then `self[1]`, whose success
means more than one row and raises `ValueError`; any non-`IndexError`
failure of either access propagates. -/
def RecordCollection.one (c : RecordCollection) (default : Val) :
    Except PyError OneResult × RecordCollection :=
  match c.getitem_int 0 with
  | (.error (.indexError _), c') =>
    if isexception default then (.error default.raised, c')
    else (.ok (.dflt default), c')
  | (.error e, c') => (.error e, c')
  | (.ok record, c') =>
    match c'.getitem_int 1 with
    | (.error (.indexError _), c'') => (.ok (.row record), c'')
    | (.error e, c'') => (.error e, c'')
    | (.ok _, c'') =>
      (.error (.valueError "RecordCollection contained more than one row"), c'')

/-- `RecordCollection.dataset` (lines 143–155): drain via `len(list(self))`;
an empty collection yields the fresh (header-less, row-less) dataset;
otherwise `first = self[0]` (which raises `TypeError`, line 124), then the
body loop would iterate `self.all()` — which returns `None` with no flags,
so even that iteration would raise `TypeError`.  The flagged-payload branch
is unreachable and discharged by proof. -/
def RecordCollection.dataset (c : RecordCollection) :
    Except PyError Dataset × RecordCollection :=
  match c.pyList with
  | (.error e, c') => (.error e, c')
  | (.ok lst, c') =>
    if lst.length = 0 then (.ok ⟨none, []⟩, c')
    else
      match c'.getitem_int 0 with
      | (.error e, c'') => (.error e, c'')
      | (.ok _, c'') =>
        match h : c''.all false false with
        | (.error e, c3) => (.error e, c3)
        | (.ok none, c3) =>
          (.error (.typeError "NoneType object is not iterable"), c3)
        | (.ok (some _), _) => by
          rcases hp : c''.pyList with ⟨res, cst⟩
          cases res <;> simp [RecordCollection.all, hp] at h

/-- Modelled from the spec: the `Connection` class is referenced by
`Database.get_connection` (line 242) but absent from the source file; per
§4.3/§6 it wraps exactly one fresh engine-level connection for its lifetime.
The engine handle is modelled as a counter of issued connections, so a fresh
connection is one whose id no earlier `connect()` call produced. -/
structure Connection where
  connId : Nat
deriving DecidableEq

/-- `Database` (lines 212–271): the `open` flag (renamed `dbOpen`; `open` is
reserved in Lean) plus the engine handle, modelled as the id the next
engine-level `connect()` will return. -/
structure Database where
  dbOpen : Bool
  nextConnId : Nat
deriving DecidableEq

/-- `Database.close` (lines 222–224): dispose the engine, mark closed. -/
def Database.close (db : Database) : Database := { db with dbOpen := false }

/-- `Database.get_connection` (lines 238–242): raise
`exc.ResourceClosedError("Database Closed")` on a closed database, else
return a `Connection` wrapping a fresh engine connection. -/
def Database.get_connection (db : Database) :
    Except PyError (Connection × Database) :=
  if db.dbOpen = false then .error (.resourceClosed "Database Closed")
  else .ok (⟨db.nextConnId⟩, { db with nextConnId := db.nextConnId + 1 })

/-- Outcome of one Python action: `none` = it returns normally,
`some e` = it raises `e`. -/
abbrev Outcome := Option PyError

/-- The engine-facing actions a `transaction()` scope performs, in order. -/
inductive TxEvent where
  | acquire_conn
  | begin_tx
  | commit_tx
  | rollback_tx
  | close_conn
deriving DecidableEq

/-- `Database.transaction` (lines 260–271), the `@contextmanager` scope:
`conn = self.get_connection(); tx = conn.transaction()`, then
`try: yield conn; tx.commit() except: tx.rollback() finally: conn.close()`.

Modelled from the spec: the `Connection` methods `transaction()`,
`commit()`, `rollback()` and `close()` are not in the source file; per §6
they delegate to the engine's begin/commit/rollback and to releasing the
connection.  The parameters give the outcome of the caller's block
(`yield`), of `tx.commit()` and of `tx.rollback()`; acquiring the
connection, opening the transaction and `conn.close()` are taken to
succeed.  Returned are the trace of engine actions and the result the
caller of the `with` block observes — per `contextlib` semantics, an
exception the generator's bare `except:` absorbs without re-raising is
suppressed, and only an exception escaping the generator (here: a failing
rollback) propagates. -/
def transaction_scope (body commitR rollbackR : Outcome) :
    List TxEvent × Except PyError Unit :=
  match body with
  | none =>
    match commitR with
    | none => ([.acquire_conn, .begin_tx, .commit_tx, .close_conn], .ok ())
    | some _ =>
      match rollbackR with
      | none =>
        ([.acquire_conn, .begin_tx, .commit_tx, .rollback_tx, .close_conn],
         .ok ())
      | some e2 =>
        ([.acquire_conn, .begin_tx, .commit_tx, .rollback_tx, .close_conn],
         .error e2)
  | some _ =>
    match rollbackR with
    | none =>
      ([.acquire_conn, .begin_tx, .rollback_tx, .close_conn], .ok ())
    | some e2 =>
      ([.acquire_conn, .begin_tx, .rollback_tx, .close_conn], .error e2)

/-- The operations callable on one `RecordCollection`, for reasoning about
arbitrary interleavings of its API. -/
inductive Op where
  | next
  | getInt (i : Int)
  | getSlice (start stop : Option Int)
  | iterate
  | allOp (as_dict as_ordereddict : Bool)
  | oneOp (default : Val)
  | datasetOp
deriving DecidableEq

/-- The state of the collection after one operation (the operation's
Python-level result is discarded; only the mutation matters here). -/
def RecordCollection.step (c : RecordCollection) : Op → RecordCollection
  | .next => c.nextR.2
  | .getInt i => (c.getitem_int i).2
  | .getSlice a b => (c.getitem_slice a b).2
  | .iterate => c.pyList.2
  | .allOp d od => (c.all d od).2
  | .oneOp d => (c.one d).2
  | .datasetOp => c.dataset.2

/-- The state of the collection after a whole sequence of operations. -/
def RecordCollection.run (c : RecordCollection) : List Op → RecordCollection
  | [] => c
  | op :: ops => (c.step op).run ops

/-- The state invariants connecting a collection to any state reachable
from it: the cache only grows at the tail; cache-plus-remaining-producer is
preserved (so the growth is exactly the producer's next emissions, in
order); `pending` never returns to `true`; and exhaustion-implies-empty-
producer is preserved. -/
def Reach (c c' : RecordCollection) : Prop :=
  (∃ t, c'.all_rows = c.all_rows ++ t)
  ∧ c'.all_rows ++ c'.rows = c.all_rows ++ c.rows
  ∧ (c.pending = false → c'.pending = false)
  ∧ ((c.pending = false → c.rows = []) →
      (c'.pending = false → c'.rows = []))

theorem Reach.refl (c : RecordCollection) : Reach c c :=
  ⟨⟨[], by simp⟩, rfl, fun h => h, fun h => h⟩

theorem Reach.trans {a b c : RecordCollection} (h1 : Reach a b)
    (h2 : Reach b c) : Reach a c := by
  obtain ⟨⟨t1, ht1⟩, he1, hp1, hi1⟩ := h1
  obtain ⟨⟨t2, ht2⟩, he2, hp2, hi2⟩ := h2
  refine ⟨⟨t1 ++ t2, by rw [ht2, ht1, List.append_assoc]⟩, ?_, ?_, ?_⟩
  · rw [he2, he1]
  · exact fun h => hp2 (hp1 h)
  · exact fun h => hi2 (hi1 h)

/-- Helper: `__getitem__` with an integer key leaves the state unchanged
and raises `TypeError` (line 124). -/
theorem getitem_int_run (c : RecordCollection) (i : Int) :
    c.getitem_int i = (.error (.typeError isinstanceTypeMsg), c) := rfl

/-- Helper: `__getitem__` with a slice key leaves the state unchanged and
raises `TypeError` (line 124). -/
theorem getitem_slice_run (c : RecordCollection) (start stop : Option Int) :
    c.getitem_slice start stop
      = (.error (.typeError isinstanceTypeMsg), c) := rfl

/-- Helper: `one` leaves the state unchanged (its first `self[0]` raises
`TypeError`, which is not an `IndexError` and so propagates). -/
theorem one_run (c : RecordCollection) (d : Val) :
    c.one d = (.error (.typeError isinstanceTypeMsg), c) := rfl

theorem reach_nextR (c : RecordCollection) : Reach c c.nextR.2 := by
  obtain ⟨rows, cache, pending⟩ := c
  cases rows with
  | nil =>
    exact ⟨⟨[], by simp [RecordCollection.nextR]⟩, rfl, fun _ => rfl,
      fun _ _ => rfl⟩
  | cons r rest =>
    exact ⟨⟨[r], rfl⟩, by simp [RecordCollection.nextR], fun h => h,
      fun hinv hp => absurd (hinv hp) (by simp)⟩

theorem reach_iterLoop (rows : List Record) :
    ∀ (i : Nat) (cache : List Record) (pending : Bool),
      Reach ⟨rows, cache, pending⟩
        (RecordCollection.iterLoop i cache pending rows).2 := by
  induction rows with
  | nil =>
    intro i cache pending
    by_cases hi : i < cache.length
    · simp only [RecordCollection.iterLoop, if_pos hi,
        RecordCollection.getitem_int, isinstance_int_key]
      exact Reach.refl _
    · simp only [RecordCollection.iterLoop, if_neg hi]
      exact ⟨⟨[], by simp⟩, rfl, fun _ => rfl, fun _ _ => rfl⟩
  | cons r rest ih =>
    intro i cache pending
    by_cases hi : i < cache.length
    · simp only [RecordCollection.iterLoop, if_pos hi,
        RecordCollection.getitem_int, isinstance_int_key]
      exact Reach.refl _
    · have hstep : Reach ⟨r :: rest, cache, pending⟩
          ⟨rest, cache ++ [r], pending⟩ :=
        ⟨⟨[r], rfl⟩, by simp, fun h => h,
          fun hinv hp => absurd (hinv hp) (by simp)⟩
      have heq : (RecordCollection.iterLoop i cache pending (r :: rest)).2
          = (RecordCollection.iterLoop (i + 1) (cache ++ [r]) pending rest).2 := by
        simp only [RecordCollection.iterLoop, if_neg hi]
        rcases RecordCollection.iterLoop (i + 1) (cache ++ [r]) pending rest
          with ⟨res, c''⟩
        cases res <;> rfl
      rw [heq]
      exact Reach.trans hstep (ih (i + 1) (cache ++ [r]) pending)

theorem reach_pyList (c : RecordCollection) : Reach c c.pyList.2 :=
  reach_iterLoop c.rows 0 c.all_rows c.pending

/-- Helper: `all` mutates the state exactly as `list(self)` does. -/
theorem all_run_state (c : RecordCollection) (d od : Bool) :
    (c.all d od).2 = c.pyList.2 := by
  rcases h : c.pyList with ⟨res, c'⟩
  cases res with
  | error e => simp [RecordCollection.all, h]
  | ok rows =>
    by_cases hd : d <;> by_cases hod : od <;>
      simp [RecordCollection.all, h, hd, hod]

/-- Helper: `dataset` mutates the state exactly as `list(self)` does (its
later `self[0]` raises `TypeError` without touching the state). -/
theorem dataset_run_state (c : RecordCollection) :
    c.dataset.2 = c.pyList.2 := by
  rcases h : c.pyList with ⟨res, c'⟩
  cases res with
  | error e => simp [RecordCollection.dataset, h]
  | ok rows =>
    by_cases hl : rows.length = 0 <;>
      simp [RecordCollection.dataset, h, hl, RecordCollection.getitem_int,
        isinstance_int_key]

theorem reach_step (c : RecordCollection) (op : Op) :
    Reach c (c.step op) := by
  cases op with
  | next => exact reach_nextR c
  | getInt i =>
    simpa [RecordCollection.step, getitem_int_run] using Reach.refl c
  | getSlice a b =>
    simpa [RecordCollection.step, getitem_slice_run] using Reach.refl c
  | iterate => exact reach_pyList c
  | allOp d od =>
    simpa [RecordCollection.step, all_run_state] using reach_pyList c
  | oneOp d =>
    simpa [RecordCollection.step, one_run] using Reach.refl c
  | datasetOp =>
    simpa [RecordCollection.step, dataset_run_state] using reach_pyList c

theorem reach_run (c : RecordCollection) (ops : List Op) :
    Reach c (c.run ops) := by
  induction ops generalizing c with
  | nil => exact Reach.refl c
  | cons op ops ih =>
    exact Reach.trans (reach_step c op) (ih (c.step op))

/-- A sample one-field row, for concrete evaluations. -/
def sampleRow : Record := ⟨["id"], [.int 1]⟩

/-- A fresh collection whose producer emits exactly `sampleRow`. -/
def sampleColl : RecordCollection := ⟨[sampleRow], [], true⟩

/-- A row holding a datetime-like value. -/
def dtRow : Record := ⟨["ts"], [.datetime "2020-01-02T03:04:05"]⟩

/-- A fresh collection whose producer emits exactly `dtRow`. -/
def dtColl : RecordCollection := ⟨[dtRow], [], true⟩

/-- C1: the claim says an integer access pulls from the producer until
`length() > i` or exhaustion and then returns `cache[i]` or fails with
`OutOfRange`.  The code instead raises `TypeError` for *every* integer
key and leaves the collection untouched, because line 124 passes
`isinstance`'s arguments in the wrong order (`isinstance(int, key)`), so
the access never reaches the pulling loop, the cache, or `IndexError`. -/
theorem c1_int_access_always_typeerror (c : RecordCollection) (i : Int) :
    c.getitem_int i = (.error (.typeError isinstanceTypeMsg), c) := rfl

/-- C2: the claim says `all()` fully drains the producer and returns the
complete ordered cache, idempotently.  Evaluated on a fresh one-row
collection, `all()` does drain (the resulting state has the row cached and
`pending = false`) but returns Python `None` — the method has no `return`
statement when both dict flags are false — and a second call raises
`TypeError`, because re-enumerating a collection with a non-empty cache
evaluates `self[0]`, which hits the swapped `isinstance` on line 124. -/
theorem c2_all_returns_none_not_rows :
    RecordCollection.all sampleColl false false
        = (.ok none, ⟨[], [sampleRow], false⟩)
      ∧ (RecordCollection.all ⟨[], [sampleRow], false⟩ false false).1
        = .error (.typeError isinstanceTypeMsg) :=
  ⟨rfl, rfl⟩

/-- C3: the claim says `one()` returns the default on zero rows, the single
row on one row, and raises `MultipleRows` on two or more.  The code instead
raises `TypeError` for every collection and every default: its first step
`self[0]` raises `TypeError` from the swapped `isinstance` on line 124,
and the `except IndexError` handler does not catch a `TypeError`. -/
theorem c3_one_always_typeerror (c : RecordCollection) (d : Val) :
    c.one d = (.error (.typeError isinstanceTypeMsg), c) := rfl

/-- C4: the claim says a missing field name fails with a `MissingField`
condition surfaced as a raised error (or an attribute-style absence signal),
never delivered as an ordinary return value.  The code instead *returns*
the `KeyError` object as the lookup's value (line 50 has `return`, not
`raise`), both through `__getitem__` and through `__getattr__`; and for a
duplicated name `__getattr__` likewise returns the `AttributeError` object
as a value (line 56). -/
theorem c4_missing_field_returned_not_raised :
    Record.getitem_str ⟨["a"], [.int 1]⟩ "b"
        = .ok (.exc (.keyError missingMsg))
      ∧ Record.getattr ⟨["a"], [.int 1]⟩ "b"
        = .ok (.exc (.keyError missingMsg))
      ∧ Record.getattr ⟨["a", "a"], [.int 1, .int 2]⟩ "a"
        = .ok (.exc (.attributeError (ambiguousMsg "a"))) :=
  ⟨rfl, rfl, rfl⟩

/-- C5: accessing a `Record` by a field name that occurs more than once in
its key list always raises `KeyError` (lines 44–48) — the access never
returns the value at the name's first occurrence. -/
theorem c5_duplicate_field_always_raises (r : Record) (key : String)
    (h : r.keys.count key > 1) :
    r.getitem_str key = .error (.keyError (ambiguousMsg key)) := by
  have hmem : key ∈ r.keys :=
    List.count_pos_iff.mp (lt_trans Nat.zero_lt_one h)
  simp [Record.getitem_str, hmem, h]

theorem c5_duplicate_field_witness :
    (Record.mk ["a", "a"] [.int 1, .int 2]).keys.count "a" > 1
      ∧ Record.getitem_str ⟨["a", "a"], [.int 1, .int 2]⟩ "a"
        = .error (.keyError (ambiguousMsg "a")) :=
  ⟨by decide, c5_duplicate_field_always_raises _ _ (by decide)⟩

/-- C6: the claim says a slice access pulls until `length() >= stop` (or
exhaustion) and returns a new collection over `cache[start:stop]`.  The
code instead raises `TypeError` for *every* slice key and leaves the
collection untouched, because line 124 passes `isinstance`'s arguments in
the wrong order; the slicing code after it is unreachable (and an unbounded
slice would raise `TypeError` again at line 129, comparing
`len(self) < None`). -/
theorem c6_slice_access_always_typeerror (c : RecordCollection)
    (start stop : Option Int) :
    c.getitem_slice start stop
      = (.error (.typeError isinstanceTypeMsg), c) := rfl

/-- C7: across any sequence of API operations, the cache grows only at the
tail, by exactly the producer's next emissions in order (conjunct 1:
the new cache is the old cache plus a block `t`, and the old producer
content was `t` followed by the remaining producer content); `length()` is
monotonically non-decreasing (conjunct 2) and never exceeds the true total
row count (conjunct 3); `pending` never returns to `true` (conjunct 4);
and once `pending` is `false` the cache holds the full row set
(conjunct 5). -/
theorem c7_cache_invariants (c : RecordCollection) (ops : List Op)
    (hInv : c.pending = false → c.rows = []) :
    (∃ t, (c.run ops).all_rows = c.all_rows ++ t
        ∧ c.rows = t ++ (c.run ops).rows)
    ∧ c.all_rows.length ≤ (c.run ops).all_rows.length
    ∧ (c.run ops).all_rows.length ≤ c.all_rows.length + c.rows.length
    ∧ (c.pending = false → (c.run ops).pending = false)
    ∧ ((c.run ops).pending = false →
        (c.run ops).all_rows = c.all_rows ++ c.rows) := by
  obtain ⟨⟨t, ht⟩, he, hp, hi⟩ := reach_run c ops
  have hrows : c.rows = t ++ (c.run ops).rows := by
    have hassoc : c.all_rows ++ (t ++ (c.run ops).rows)
        = c.all_rows ++ c.rows := by
      rw [← List.append_assoc, ← ht, he]
    exact (List.append_cancel_left hassoc).symm
  refine ⟨⟨t, ht, hrows⟩, ?_, ?_, hp, ?_⟩
  · rw [ht]; simp
  · have hlen := congrArg List.length he
    simp only [List.length_append] at hlen
    omega
  · intro hpend
    have hempty : (c.run ops).rows = [] := hi hInv hpend
    have he' := he
    rw [hempty, List.append_nil] at he'
    exact he'

theorem c7_cache_invariants_witness :
    (sampleColl.pending = false → sampleColl.rows = [])
    ∧ ((∃ t, (sampleColl.run [Op.next, Op.next]).all_rows
            = sampleColl.all_rows ++ t
          ∧ sampleColl.rows = t ++ (sampleColl.run [Op.next, Op.next]).rows)
      ∧ sampleColl.all_rows.length
          ≤ (sampleColl.run [Op.next, Op.next]).all_rows.length
      ∧ (sampleColl.run [Op.next, Op.next]).all_rows.length
          ≤ sampleColl.all_rows.length + sampleColl.rows.length
      ∧ (sampleColl.pending = false →
          (sampleColl.run [Op.next, Op.next]).pending = false)
      ∧ ((sampleColl.run [Op.next, Op.next]).pending = false →
          (sampleColl.run [Op.next, Op.next]).all_rows
            = sampleColl.all_rows ++ sampleColl.rows)) :=
  ⟨by simp [sampleColl],
   c7_cache_invariants sampleColl [Op.next, Op.next] (by simp [sampleColl])⟩

/-- C8 counterexample: the claim says a failure of the caller's block is
rolled back and then *re-raised to the caller unchanged*.  Evaluated at a
block that raises `ValueError`, with commit and rollback healthy, the
scope's caller observes a normal (`ok`) exit: the bare `except:` on line
268 rolls back but never re-raises, so the failure is swallowed. -/
theorem c8_failure_swallowed_counterexample :
    (transaction_scope (some (.valueError "boom")) none none).2 = .ok () :=
  rfl

/-- C8 as amended: on normal completion of the block the transaction is
committed; if the block (or the commit) fails, the transaction is rolled
back and the failure is *suppressed* rather than re-raised — only a failure
of the rollback itself propagates; and the connection is released (closed)
on every exit path. -/
theorem c8_transaction_amended (body commitR rollbackR : Outcome) :
    ((transaction_scope body commitR rollbackR).1.contains .close_conn
        = true)
    ∧ ((transaction_scope body commitR rollbackR).1.contains .commit_tx
        = body.isNone)
    ∧ ((transaction_scope body commitR rollbackR).1.contains .rollback_tx
        = (body.isSome || commitR.isSome))
    ∧ ((transaction_scope body commitR rollbackR).2
        = if body.isSome || commitR.isSome then
            (match rollbackR with
              | none => .ok ()
              | some e2 => .error e2)
          else .ok ()) := by
  rcases body with _ | eb <;> rcases commitR with _ | ec <;>
    rcases rollbackR with _ | er <;>
      simp [transaction_scope]

/-- C9: `get_connection` fails with a `ResourceClosed` condition on a
closed database; on an open database it returns a `Connection` wrapping a
fresh engine-level connection (the id the engine issues next, never issued
before) and advances the engine's connection counter. -/
theorem c9_get_connection (db : Database) :
    (db.dbOpen = false →
      db.get_connection = .error (.resourceClosed "Database Closed"))
    ∧ (db.dbOpen = true →
      db.get_connection
        = .ok (⟨db.nextConnId⟩, ⟨true, db.nextConnId + 1⟩)) := by
  constructor
  · intro h
    simp [Database.get_connection, h]
  · intro h
    simp [Database.get_connection, h]

theorem c9_get_connection_witness :
    (Database.get_connection ⟨false, 0⟩
        = .error (.resourceClosed "Database Closed"))
    ∧ (Database.get_connection ⟨true, 5⟩ = .ok (⟨5⟩, ⟨true, 6⟩)) :=
  ⟨(c9_get_connection ⟨false, 0⟩).1 rfl,
   (c9_get_connection ⟨true, 5⟩).2 rfl⟩

/-- C10: the claim says every row of values handed to the export
collaborator has its datetime-like values replaced by their ISO-8601
strings with everything else unchanged, for single-row and full-sequence
export alike.  Conjuncts 1 and 2 prove the normalization itself and the
single-row path: `_reduce_datetimes` maps exactly the datetime-like values
to their ISO strings in place, and `Record.dataset` hands the exporter the
headers plus the one reduced row.  Conjunct 3 shows the full-sequence path
never hands anything over: on a collection holding a datetime-valued row,
`dataset` raises `TypeError` (its `self[0]` hits the swapped `isinstance`
on line 124). -/
theorem c10_datetime_normalization :
    (∀ row : List Val, _reduce_datetimes row
        = row.map (fun v => match v with
            | .datetime iso => .str iso
            | other => other))
    ∧ (∀ r : Record, (Record.dataset r).headers = some r.keys
        ∧ (Record.dataset r).rows = [_reduce_datetimes r.values])
    ∧ (RecordCollection.dataset dtColl).1
        = .error (.typeError isinstanceTypeMsg) := by
  refine ⟨?_, fun r => ⟨rfl, rfl⟩, rfl⟩
  intro row
  induction row with
  | nil => rfl
  | cons v rest ih =>
    simp only [_reduce_datetimes, List.map_cons] at ih ⊢
    rw [ih]
    cases v <;> rfl

end Records

